import Mathlib

/-!
Verification of the product policy evaluator in
`src/services/impl/product.service.ts`.

The service is a single class dispatching on a product type tag and issuing
point updates against a relational store plus fire-and-forget notifications.
We embed it shallowly: timestamps are integers (JS `Date` values compare by
their millisecond value), a database write is recorded as a `(productId,
patch)` pair, and each method returns the list of writes and notifications it
performs, in program order per list.
-/

/-- A product row, mirroring the drizzle schema fields used by the service.
`expiryDate`, `seasonStartDate` and `seasonEndDate` are nullable timestamps. -/
structure Product where
  id : Int
  leadTime : Int
  available : Int
  type : String
  name : String
  expiryDate : Option Int
  seasonStartDate : Option Int
  seasonEndDate : Option Int
  deriving DecidableEq, Repr

/-- A partial field patch as passed to `updateProduct(productId, patch)`.
Every column of the row can in principle appear in a patch; a field is
written exactly when it is `some`. -/
structure Patch where
  id : Option Int := none
  leadTime : Option Int := none
  available : Option Int := none
  type : Option String := none
  name : Option String := none
  expiryDate : Option (Option Int) := none
  seasonStartDate : Option (Option Int) := none
  seasonEndDate : Option (Option Int) := none
  deriving DecidableEq, Repr

/-- The three one-way notification gateway calls. -/
inductive Notif where
  | delay (leadTime : Int) (productName : String)
  | outOfStock (productName : String)
  | expiration (productName : String) (expiryDate : Option Int)
  deriving DecidableEq, Repr

/-- The externally visible effects of one service call: the `updateProduct`
writes and the notifications it fires, each in program order. -/
structure Effects where
  updates : List (Int × Patch)
  notifications : List Notif
  deriving DecidableEq, Repr

/-- A call that touches neither the store nor the notification gateway. -/
def noEffects : Effects := { updates := [], notifications := [] }

/-- `const DAY_IN_MS = 24 * 60 * 60 * 1000`. -/
def DAY_IN_MS : Int := 24 * 60 * 60 * 1000

/-- Millisecond value of a nullable date under JS comparison coercion:
`date > null` compares against `Number(null) = 0`, so the non-null assertions
`p.seasonEndDate!` / `p.seasonStartDate!` read as 0 when the column is null. -/
def dateNum : Option Int → Int
  | some t => t
  | none => 0

/-- `decrementAvailable`: one write of the absolute value
`product.available - 1` computed from the in-memory record. -/
def decrementAvailable (product : Product) : Effects :=
  { updates := [(product.id, { available := some (product.available - 1) })]
    notifications := [] }

/-- `notifyDelay(leadTime, p)`: persist `leadTime`, then fire the delay
notification with `(leadTime, p.name)`. -/
def notifyDelay (leadTime : Int) (p : Product) : Effects :=
  { updates := [(p.id, { leadTime := some leadTime })]
    notifications := [Notif.delay leadTime p.name] }

/-- `isWithinSeason`: both season bounds present (a JS `Date` object is
always truthy, `null` is falsy) and `seasonStartDate < now < seasonEndDate`
strictly. -/
def isWithinSeason (p : Product) (now : Int) : Bool :=
  match p.seasonStartDate, p.seasonEndDate with
  | some s, some e => decide (now > s) && decide (now < e)
  | _, _ => false

/-- `isNotExpired`: `expiryDate` present and strictly after `now`. -/
def isNotExpired (p : Product) (now : Int) : Bool :=
  match p.expiryDate with
  | some d => decide (d > now)
  | none => false

/-- `handleSeasonalProduct(p, now)`: compare `now + leadTime` days against
the season end, then the season start against `now`; otherwise delegate to
`notifyDelay`. -/
def handleSeasonalProduct (p : Product) (now : Int) : Effects :=
  let expectedRestockDate := now + p.leadTime * DAY_IN_MS
  if expectedRestockDate > dateNum p.seasonEndDate then
    { updates := [(p.id, { available := some 0 })]
      notifications := [Notif.outOfStock p.name] }
  else if dateNum p.seasonStartDate > now then
    { updates := [(p.id, { available := some p.available, leadTime := some p.leadTime })]
      notifications := [Notif.outOfStock p.name] }
  else
    notifyDelay p.leadTime p

/-- `handleExpiredProduct(p, now)`: re-check stock and expiry, decrement on
the re-check, otherwise fire the expiration notification with
`(p.name, p.expiryDate!)` and zero the stock. -/
def handleExpiredProduct (p : Product) (now : Int) : Effects :=
  if 0 < p.available ∧ isNotExpired p now then
    decrementAvailable p
  else
    { updates := [(p.id, { available := some 0 })]
      notifications := [Notif.expiration p.name p.expiryDate] }

/-- `processNormalProduct`. -/
def processNormalProduct (product : Product) : Effects :=
  if 0 < product.available then
    decrementAvailable product
  else if 0 < product.leadTime then
    notifyDelay product.leadTime product
  else
    noEffects

/-- `processSeasonalProduct`. -/
def processSeasonalProduct (product : Product) (now : Int) : Effects :=
  if isWithinSeason product now ∧ 0 < product.available then
    decrementAvailable product
  else
    handleSeasonalProduct product now

/-- `processExpirableProduct`. -/
def processExpirableProduct (product : Product) (now : Int) : Effects :=
  if 0 < product.available ∧ isNotExpired product now then
    decrementAvailable product
  else
    handleExpiredProduct product now

/-- `processOneUnit(product, now)`: switch on the stored type tag; a tag
outside the three cases falls through the `switch` and returns. -/
def processOneUnit (product : Product) (now : Int) : Effects :=
  if product.type = "NORMAL" then
    processNormalProduct product
  else if product.type = "SEASONAL" then
    processSeasonalProduct product now
  else if product.type = "EXPIRABLE" then
    processExpirableProduct product now
  else
    noEffects

/-- Apply one patch to a row: each `some` field overwrites the column. -/
def applyPatch (row : Product) (q : Patch) : Product :=
  { id := q.id.getD row.id
    leadTime := q.leadTime.getD row.leadTime
    available := q.available.getD row.available
    type := q.type.getD row.type
    name := q.name.getD row.name
    expiryDate := q.expiryDate.getD row.expiryDate
    seasonStartDate := q.seasonStartDate.getD row.seasonStartDate
    seasonEndDate := q.seasonEndDate.getD row.seasonEndDate }

/-- Apply the writes of a call, in order, to the persisted row; a write
targets the row `where eq(products.id, productId)`. -/
def applyEffects (row : Product) (e : Effects) : Product :=
  e.updates.foldl (fun r u => if u.1 = r.id then applyPatch r u.2 else r) row

/-! ## Sample records used by witnesses and counterexamples -/

/-- A NORMAL product with stock, as in the repository's unit tests. -/
def cNormal2 : Product :=
  { id := 1, leadTime := 15, available := 2, type := "NORMAL", name := "USB Cable"
    expiryDate := none, seasonStartDate := none, seasonEndDate := none }

/-- A NORMAL product with no stock and no lead time. -/
def cNormal00 : Product :=
  { id := 2, leadTime := 0, available := 0, type := "NORMAL", name := "RJ45 Cable"
    expiryDate := none, seasonStartDate := none, seasonEndDate := none }

/-- A product whose type tag is outside the three known enum values. -/
def cUnknown : Product :=
  { id := 9, leadTime := 3, available := 4, type := "BROKEN", name := "Mystery"
    expiryDate := none, seasonStartDate := none, seasonEndDate := none }

/-! ## Claims -/

/-- C1 counterexample: on a NORMAL product with stock, the first call takes
the decrement branch, yet after two calls on the same in-memory record the
stored `available` is NOT the original minus 2 — both calls write the same
absolute value `available - 1` computed from the stale snapshot. -/
theorem c1_counterexample :
    processOneUnit cNormal2 0 = decrementAvailable cNormal2 ∧
    ¬ (applyEffects (applyEffects cNormal2 (processOneUnit cNormal2 0))
        (processOneUnit cNormal2 0)).available = cNormal2.available - 2 := by
  decide

/-- C1 (amended): calling `processOneUnit` twice in immediate succession on
the same in-memory product record, without re-fetching, leaves the stored
`available` at the original value minus 1 whenever the first call takes the
decrement branch: the second call overwrites the row with the same value. -/
theorem c1_amended_single_decrement (p : Product) (now : Int)
    (h : processOneUnit p now = decrementAvailable p) :
    (applyEffects (applyEffects p (processOneUnit p now)) (processOneUnit p now)).available
      = p.available - 1 := by
  rw [h]
  simp [applyEffects, decrementAvailable, applyPatch]

/-- C1 witness: the amended statement at a concrete NORMAL product. -/
theorem c1_amended_witness :
    processOneUnit cNormal2 0 = decrementAvailable cNormal2 ∧
    (applyEffects (applyEffects cNormal2 (processOneUnit cNormal2 0))
        (processOneUnit cNormal2 0)).available = cNormal2.available - 1 :=
  ⟨by decide, c1_amended_single_decrement cNormal2 0 (by decide)⟩

/-- C2: for a NORMAL product, `processOneUnit` decrements and persists
`available` (no notification) when stock is positive; otherwise when
`leadTime > 0` it persists `leadTime` unchanged and fires the delay
notification with `(leadTime, name)`; otherwise it does nothing. -/
theorem c2_normal_policy (p : Product) (now : Int) (h : p.type = "NORMAL") :
    (0 < p.available →
      processOneUnit p now =
        { updates := [(p.id, { available := some (p.available - 1) })]
          notifications := [] })
    ∧ (¬ 0 < p.available → 0 < p.leadTime →
      processOneUnit p now =
        { updates := [(p.id, { leadTime := some p.leadTime })]
          notifications := [Notif.delay p.leadTime p.name] })
    ∧ (¬ 0 < p.available → ¬ 0 < p.leadTime → processOneUnit p now = noEffects) := by
  refine ⟨fun h1 => ?_, fun h1 h2 => ?_, fun h1 h2 => ?_⟩ <;>
    simp [processOneUnit, processNormalProduct, decrementAvailable, notifyDelay, h, h1]
  · simp [h2]
  · simp [h2]

/-- C2 witness: the three NORMAL branches exercised on concrete products. -/
theorem c2_witness :
    0 < cNormal2.available ∧
    processOneUnit cNormal2 0 =
      { updates := [(cNormal2.id, { available := some (cNormal2.available - 1) })]
        notifications := [] } :=
  ⟨by decide, (c2_normal_policy cNormal2 0 rfl).1 (by decide)⟩

/-- C8: a product whose type tag is none of NORMAL, SEASONAL, EXPIRABLE
falls through the switch: no write, no notification, no error. -/
theorem c8_unknown_type_noop (p : Product) (now : Int)
    (h1 : p.type ≠ "NORMAL") (h2 : p.type ≠ "SEASONAL") (h3 : p.type ≠ "EXPIRABLE") :
    (processOneUnit p now).updates = [] ∧ (processOneUnit p now).notifications = [] := by
  simp [processOneUnit, h1, h2, h3, noEffects]

/-- C8 witness: the no-op at a concrete unrecognized type tag. -/
theorem c8_witness :
    cUnknown.type ≠ "NORMAL" ∧ cUnknown.type ≠ "SEASONAL" ∧ cUnknown.type ≠ "EXPIRABLE" ∧
    (processOneUnit cUnknown 0).updates = [] ∧ (processOneUnit cUnknown 0).notifications = [] :=
  ⟨by decide, by decide, by decide,
    c8_unknown_type_noop cUnknown 0 (by decide) (by decide) (by decide)⟩

/-- C10: a single call to `processOneUnit` issues at most one `updateProduct`
write, on every execution path. -/
theorem c10_at_most_one_write (p : Product) (now : Int) :
    (processOneUnit p now).updates.length ≤ 1 := by
  simp only [processOneUnit, processNormalProduct, processSeasonalProduct,
    processExpirableProduct, handleSeasonalProduct, handleExpiredProduct,
    decrementAvailable, notifyDelay, noEffects]
  split_ifs <;> simp

/-- A SEASONAL product currently inside its season window, with stock. -/
def cSeasonIn : Product :=
  { id := 4, leadTime := 15, available := 3, type := "SEASONAL", name := "Watermelon"
    expiryDate := none, seasonStartDate := some (-10), seasonEndDate := some 10 }

/-- A SEASONAL product whose restock would land after the season end. -/
def cSeasonLate : Product :=
  { id := 3, leadTime := 30, available := 0, type := "SEASONAL", name := "Grapes"
    expiryDate := none, seasonStartDate := some 5, seasonEndDate := some 10 }

/-- An EXPIRABLE product with stock and a future expiry date. -/
def cButter : Product :=
  { id := 5, leadTime := 15, available := 2, type := "EXPIRABLE", name := "Butter"
    expiryDate := some 10, seasonStartDate := none, seasonEndDate := none }

/-- An EXPIRABLE product whose expiry date is already past. -/
def cMilk : Product :=
  { id := 6, leadTime := 15, available := 6, type := "EXPIRABLE", name := "Milk"
    expiryDate := some (-5), seasonStartDate := none, seasonEndDate := none }

/-- The seasonal handler always fires a notification, so its effects never
coincide with the silent decrement write. -/
lemma handleSeasonal_ne_decrement (p : Product) (now : Int) :
    handleSeasonalProduct p now ≠ decrementAvailable p := by
  simp only [handleSeasonalProduct, decrementAvailable, notifyDelay]
  split_ifs <;> intro h <;> exact absurd (congrArg Effects.notifications h) (by simp)

/-- C3: for a SEASONAL product, `processOneUnit` produces exactly the
decrement write if and only if the strict within-season check (both bounds
present) holds together with positive stock; when `now` equals either bound
or either bound is null, the predicate is false and the call routes to
`handleSeasonalProduct`. -/
theorem c3_seasonal_dispatch (p : Product) (now : Int) (h : p.type = "SEASONAL") :
    (processOneUnit p now = decrementAvailable p ↔
      (isWithinSeason p now = true ∧ 0 < p.available))
    ∧ ((p.seasonStartDate = some now ∨ p.seasonEndDate = some now ∨
        p.seasonStartDate = none ∨ p.seasonEndDate = none) →
      isWithinSeason p now = false ∧ processOneUnit p now = handleSeasonalProduct p now) := by
  have hp : processOneUnit p now = processSeasonalProduct p now := by
    simp [processOneUnit, h]
  constructor
  · rw [hp]
    unfold processSeasonalProduct
    split_ifs with hc
    · exact iff_of_true rfl hc
    · exact iff_of_false (handleSeasonal_ne_decrement p now) hc
  · intro hd
    have hw : isWithinSeason p now = false := by
      unfold isWithinSeason
      rcases hs : p.seasonStartDate with _ | s <;> rcases he : p.seasonEndDate with _ | e
      · rfl
      · rfl
      · rfl
      · rcases hd with h1 | h1 | h1 | h1
        · rw [hs] at h1
          obtain rfl : s = now := Option.some.inj h1
          simp
        · rw [he] at h1
          obtain rfl : e = now := Option.some.inj h1
          simp
        · rw [hs] at h1; exact absurd h1 (by simp)
        · rw [he] at h1; exact absurd h1 (by simp)
    refine ⟨hw, ?_⟩
    rw [hp]
    unfold processSeasonalProduct
    rw [if_neg]
    rw [hw]
    simp
  
/-- C3 witness: inside the season with stock, the call is exactly the
decrement write. -/
theorem c3_witness :
    processOneUnit cSeasonIn 0 = decrementAvailable cSeasonIn :=
  ((c3_seasonal_dispatch cSeasonIn 0 rfl).1).mpr (by decide)

/-- C4: with both season bounds present, the seasonal handler fires
out-of-stock and zeroes `available` when `now + leadTime` days passes the
season end; otherwise, before the season start, it fires out-of-stock and
re-writes `available` and `leadTime` unchanged; otherwise it delegates to the
delay notification with `(leadTime, product)`. -/
theorem c4_seasonal_handler (p : Product) (now s e : Int)
    (hs : p.seasonStartDate = some s) (he : p.seasonEndDate = some e) :
    (now + p.leadTime * DAY_IN_MS > e →
      handleSeasonalProduct p now =
        { updates := [(p.id, { available := some 0 })]
          notifications := [Notif.outOfStock p.name] })
    ∧ (¬ now + p.leadTime * DAY_IN_MS > e → s > now →
      handleSeasonalProduct p now =
        { updates := [(p.id, { available := some p.available, leadTime := some p.leadTime })]
          notifications := [Notif.outOfStock p.name] })
    ∧ (¬ now + p.leadTime * DAY_IN_MS > e → ¬ s > now →
      handleSeasonalProduct p now =
        { updates := [(p.id, { leadTime := some p.leadTime })]
          notifications := [Notif.delay p.leadTime p.name] }) := by
  refine ⟨fun h1 => ?_, fun h1 h2 => ?_, fun h1 h2 => ?_⟩
  · simp [handleSeasonalProduct, dateNum, hs, he, h1]
  · simp [handleSeasonalProduct, dateNum, hs, he, h1, h2]
  · simp [handleSeasonalProduct, dateNum, hs, he, notifyDelay, h1, h2]

/-- C4 witness: restock after season end fires out-of-stock and zeroes the
stock. -/
theorem c4_witness :
    handleSeasonalProduct cSeasonLate 0 =
      { updates := [(cSeasonLate.id, { available := some 0 })]
        notifications := [Notif.outOfStock cSeasonLate.name] } :=
  (c4_seasonal_handler cSeasonLate 0 5 10 rfl rfl).1 (by decide)

/-- C5: for an EXPIRABLE product, `processOneUnit` decrements and persists
`available` with no notification when stock is positive and the expiry date
is present and strictly in the future; otherwise it fires the expiration
notification with `(name, expiryDate)` and persists `available = 0`; an
expiry date equal to `now` or a null expiry date counts as expired. -/
theorem c5_expirable_policy (p : Product) (now : Int) (h : p.type = "EXPIRABLE") :
    (∀ d, p.expiryDate = some d → now < d → 0 < p.available →
      processOneUnit p now =
        { updates := [(p.id, { available := some (p.available - 1) })]
          notifications := [] })
    ∧ (¬ (0 < p.available ∧ isNotExpired p now = true) →
      processOneUnit p now =
        { updates := [(p.id, { available := some 0 })]
          notifications := [Notif.expiration p.name p.expiryDate] })
    ∧ (p.expiryDate = some now → isNotExpired p now = false)
    ∧ (p.expiryDate = none → isNotExpired p now = false) := by
  refine ⟨?_, ?_, ?_, ?_⟩
  · intro d hd hlt hav
    have hne : isNotExpired p now = true := by
      simp only [isNotExpired, hd]
      simpa using hlt
    simp [processOneUnit, h, processExpirableProduct, hav, hne, decrementAvailable]
  · intro hc
    simp [processOneUnit, h, processExpirableProduct, handleExpiredProduct, hc]
  · intro hd; simp [isNotExpired, hd]
  · intro hd; simp [isNotExpired, hd]

/-- C5 witness: in-stock, not-yet-expired EXPIRABLE product is decremented
with no notification. -/
theorem c5_witness :
    processOneUnit cButter 0 =
      { updates := [(cButter.id, { available := some (cButter.available - 1) })]
        notifications := [] } :=
  (c5_expirable_policy cButter 0 rfl).1 10 rfl (by decide) (by decide)

/-- One of the four externally visible actions (decrement, delay,
out-of-stock, expiration) together with its paired write, in the exact
shapes `processOneUnit` can produce. -/
def performsOneAction (p : Product) (e : Effects) : Prop :=
  e = decrementAvailable p ∨
  e = notifyDelay p.leadTime p ∨
  e = { updates := [(p.id, { available := some 0 })]
        notifications := [Notif.outOfStock p.name] } ∨
  e = { updates := [(p.id, { available := some p.available, leadTime := some p.leadTime })]
        notifications := [Notif.outOfStock p.name] } ∨
  e = { updates := [(p.id, { available := some 0 })]
        notifications := [Notif.expiration p.name p.expiryDate] }

/-- C6 counterexample: a NORMAL product with no stock and no lead time
performs none of the four actions — `processOneUnit` is not "exactly one
action" on every record. -/
theorem c6_counterexample :
    ¬ performsOneAction cNormal00 (processOneUnit cNormal00 0) := by
  unfold performsOneAction
  decide

/-- C6 (amended): a single call to `processOneUnit` performs at most one of
the four actions, each paired with exactly one persisted write; the
remaining paths (NORMAL with no stock and no lead time, or an unrecognized
type tag) do nothing at all. -/
theorem c6_amended_at_most_one_action (p : Product) (now : Int) :
    processOneUnit p now = noEffects ∨ performsOneAction p (processOneUnit p now) := by
  simp only [performsOneAction, processOneUnit, processNormalProduct, processSeasonalProduct,
    processExpirableProduct, handleSeasonalProduct, handleExpiredProduct]
  split_ifs <;> simp [decrementAvailable, notifyDelay, noEffects]

/-- C7: whenever the EXPIRABLE dispatch delegates to `handleExpiredProduct`
(stock-and-not-expired is false), the handler's defensive re-check of the
same condition is also false, so it takes the notify-and-zero branch. -/
theorem c7_expired_recheck_dead (p : Product) (now : Int) (h : p.type = "EXPIRABLE")
    (hd : ¬ (0 < p.available ∧ isNotExpired p now = true)) :
    processOneUnit p now = handleExpiredProduct p now ∧
    handleExpiredProduct p now =
      { updates := [(p.id, { available := some 0 })]
        notifications := [Notif.expiration p.name p.expiryDate] } := by
  constructor
  · simp [processOneUnit, h, processExpirableProduct, hd]
  · simp [handleExpiredProduct, hd]

/-- C7 witness: an expired product routes to the handler and gets the
notify-and-zero branch. -/
theorem c7_witness :
    processOneUnit cMilk 0 = handleExpiredProduct cMilk 0 ∧
    handleExpiredProduct cMilk 0 =
      { updates := [(cMilk.id, { available := some 0 })]
        notifications := [Notif.expiration cMilk.name cMilk.expiryDate] } :=
  c7_expired_recheck_dead cMilk 0 rfl (by decide)

/-- A patch that leaves `id`, `type`, `name` and all three date columns
untouched: only `available` and/or `leadTime` may be written. -/
def patchWritesOnlyStockFields (q : Patch) : Bool :=
  q.id.isNone && q.type.isNone && q.name.isNone &&
  q.expiryDate.isNone && q.seasonStartDate.isNone && q.seasonEndDate.isNone

/-- Every write of the call targets the given product's row and touches only
the `available` / `leadTime` columns. -/
def effectsFrameOK (pid : Int) (e : Effects) : Bool :=
  e.updates.all fun u => decide (u.1 = pid) && patchWritesOnlyStockFields u.2

/-- C9: every patch issued by `processOneUnit`, `notifyDelay`,
`handleSeasonalProduct` or `handleExpiredProduct` writes only `available`
and/or `leadTime` of the given product's row; no other column is ever
written and no row is created or deleted (the effects model only carries
point updates). -/
theorem c9_frame (p : Product) (now lt : Int) :
    effectsFrameOK p.id (processOneUnit p now) = true ∧
    effectsFrameOK p.id (notifyDelay lt p) = true ∧
    effectsFrameOK p.id (handleSeasonalProduct p now) = true ∧
    effectsFrameOK p.id (handleExpiredProduct p now) = true := by
  refine ⟨?_, ?_, ?_, ?_⟩
  · simp only [processOneUnit, processNormalProduct, processSeasonalProduct,
      processExpirableProduct, handleSeasonalProduct, handleExpiredProduct,
      decrementAvailable, notifyDelay, noEffects]
    split_ifs <;> simp [effectsFrameOK, patchWritesOnlyStockFields]
  · simp [notifyDelay, effectsFrameOK, patchWritesOnlyStockFields]
  · simp only [handleSeasonalProduct, notifyDelay]
    split_ifs <;> simp [effectsFrameOK, patchWritesOnlyStockFields]
  · simp only [handleExpiredProduct, decrementAvailable]
    split_ifs <;> simp [effectsFrameOK, patchWritesOnlyStockFields]
